import Mathlib

/-!
Verification development for the two probe scripts of the
`wotnot_Dynamic_lifecycle` repository: `test-e2e-flow.py` and
`test-nlb-session.py`.

The scripts are shallowly embedded: an HTTP call is modelled by a
`TransportResult` supplied by the environment (either a response object or a
raised exception of the `requests` library), and each script becomes a pure
function from its start time and its transport results to a process result
(exit code, standard-output lines, and the list of requests actually issued).
-/

/-- The exceptions `requests` can raise at a call site, as the scripts
distinguish them.  `connectTimeout` models `requests.exceptions.ConnectTimeout`,
which in Python is a subclass of both `Timeout` and `ConnectionError`;
`timeout` models the remaining `Timeout` subclasses (e.g. `ReadTimeout`);
`connectionError` models the non-timeout `ConnectionError`s (DNS failure,
connection refused, reset); `other` models any other `Exception`. -/
inductive PyExc where
  | timeout (msg : String)
  | connectTimeout (msg : String)
  | connectionError (msg : String)
  | other (msg : String)
deriving DecidableEq

/-- The message carried by an exception (`str(e)` in the scripts). -/
def PyExc.msg : PyExc → String
  | .timeout m => m
  | .connectTimeout m => m
  | .connectionError m => m
  | .other m => m

/-- Whether an exception matches `except requests.exceptions.Timeout`. -/
def PyExc.isTimeout : PyExc → Bool
  | .timeout _ => true
  | .connectTimeout _ => true
  | _ => false

/-- Whether an exception matches `except requests.exceptions.ConnectionError`
(`ConnectTimeout` is a subclass of `ConnectionError` as well). -/
def PyExc.isConnectionError : PyExc → Bool
  | .connectionError _ => true
  | .connectTimeout _ => true
  | _ => false

/-- The outcome of calling `response.json()` on a received response: `.ok`
with the rendered value when the body parses as JSON, `.error` with the
decode-error message when it does not (in which case `response.json()`
raises that error). -/
inductive JsonResult where
  | ok (rendered : String)
  | error (msg : String)
deriving DecidableEq

/-- A received HTTP response as the scripts consume it: the status code, the
body text (`response.text`), and the outcome of `response.json()`. -/
structure HttpResponse where
  status : Nat
  text : String
  json : JsonResult
deriving DecidableEq

/-- What one HTTP call performed by a script produces: a response object, or a
raised exception. -/
inductive TransportResult where
  | ok (r : HttpResponse)
  | exn (e : PyExc)
deriving DecidableEq

/-- One HTTP request as issued by the scripts: method, full URL, optional JSON
payload (the Python dict passed as `json=`), and the per-call `timeout=`
argument in seconds. -/
structure Request where
  method : String
  url : String
  payload : Option (List (String × String))
  timeout : Nat
deriving DecidableEq

/-- The observable result of running one script: the process exit code, the
standard-output lines the claims refer to, and the requests actually issued,
in order. -/
structure ProcResult where
  exitCode : Nat
  stdout : List String
  issued : List Request
deriving DecidableEq

/-- The spec's Step Outcome failure kinds. -/
inductive OutcomeKind where
  | Timeout
  | ConnectionError
  | UnexpectedStatus
  | OtherError
deriving DecidableEq

/- ### test-e2e-flow.py -/

/-- `API_GATEWAY_URL` constant of `test-e2e-flow.py` (line 8). -/
def API_GATEWAY_URL : String := "http://api-gateway.sessions.svc.cluster.local:8000"

/-- `SESSION_ID = f"test-session-{int(time.time())}"` (line 9).  The wall
clock is modelled in milliseconds, so `int(time.time())` — truncation of the
float seconds — is `nowMs / 1000`, and the f-string interpolation of the int
is `Nat.repr`. -/
def SESSION_ID (nowMs : Nat) : String := "test-session-" ++ Nat.repr (nowMs / 1000)

/-- Step 1 of the e2e flow: `POST {url}/api/v1/session/{sid}/execute` with
body `{"action": "test", "data": "hello"}` and `timeout=30` (lines 18-22). -/
def e2eStep1 (sid : String) : Request :=
  { method := "POST"
    url := API_GATEWAY_URL ++ "/api/v1/session/" ++ sid ++ "/execute"
    payload := some [("action", "test"), ("data", "hello")]
    timeout := 30 }

/-- Step 2 of the e2e flow: `GET {url}/api/v1/session/{sid}/status` with
`timeout=10` (lines 28-31). -/
def e2eStep2 (sid : String) : Request :=
  { method := "GET"
    url := API_GATEWAY_URL ++ "/api/v1/session/" ++ sid ++ "/status"
    payload := none
    timeout := 10 }

/-- Step 3 of the e2e flow: `POST {url}/api/v1/session/{sid}/execute` with
body `{"action": "test2", "data": "world"}` and `timeout=10` (lines 37-41). -/
def e2eStep3 (sid : String) : Request :=
  { method := "POST"
    url := API_GATEWAY_URL ++ "/api/v1/session/" ++ sid ++ "/execute"
    payload := some [("action", "test2"), ("data", "world")]
    timeout := 10 }

/-- The ordered request sequence of the e2e flow's `try` block. -/
def e2eRequests (sid : String) : List Request :=
  [e2eStep1 sid, e2eStep2 sid, e2eStep3 sid]

/-- The classifier realised by the `except` chain of `test-e2e-flow.py`
(lines 48-56): `except requests.exceptions.Timeout` first, then
`except requests.exceptions.ConnectionError`, then `except Exception`, which
is the spec's catch-all `OtherError` category. -/
def e2eClassify (e : PyExc) : OutcomeKind :=
  if e.isTimeout then .Timeout
  else if e.isConnectionError then .ConnectionError
  else .OtherError

/-- The straight-line `try` body of `test-e2e-flow.py`: issue each request in
order; a returned response prints its status and text and control moves on to
the next statement; a raised exception aborts the block immediately.  Returns
the issued requests, the output lines, and the first exception if any.
`i` is the index (into the run) of the next call, used to look up the
environment's `transport`. -/
def e2eGo : List Request → (Nat → TransportResult) → Nat →
    List Request × List String × Option PyExc
  | [], _, _ => ([], [], none)
  | r :: rs, transport, i =>
    match transport i with
    | .ok resp =>
      let rest := e2eGo rs transport (i + 1)
      (r :: rest.1,
       ("Response Status: " ++ Nat.repr resp.status) :: ("Response: " ++ resp.text) :: rest.2.1,
       rest.2.2)
    | .exn e => ([r], [], some e)

/-- The whole `test-e2e-flow.py` process (lines 15-56): run the `try` block on
the three requests rendered from this run's `SESSION_ID`; if it completes,
print the success banner and `sys.exit(0)`; if an exception is raised, the
matching `except` clause prints its marker line and `sys.exit(1)`. -/
def e2eMain (nowMs : Nat) (transport : Nat → TransportResult) : ProcResult :=
  let sid := SESSION_ID nowMs
  let res := e2eGo (e2eRequests sid) transport 0
  match res.2.2 with
  | none =>
    { exitCode := 0
      stdout := res.2.1 ++ ["✅ End-to-end test completed successfully!"]
      issued := res.1 }
  | some e =>
    let line :=
      match e2eClassify e with
      | .Timeout => "❌ Timeout error: " ++ e.msg
      | .ConnectionError => "❌ Connection error: " ++ e.msg
      | _ => "❌ Error: " ++ e.msg
    { exitCode := 1
      stdout := res.2.1 ++ [line]
      issued := res.1 }

/- ### test-nlb-session.py -/

/-- `NLB_URL` constant of `test-nlb-session.py` (line 9). -/
def NLB_URL : String :=
  "http://ad171b9bedd35460890473e6baf67a42-b4ef754c96f0229e.elb.ap-south-1.amazonaws.com"

/-- The request issued by `test_health` (line 15): `GET {NLB_URL}/health`,
`timeout=10`. -/
def healthRequest : Request :=
  { method := "GET", url := NLB_URL ++ "/health", payload := none, timeout := 10 }

/-- `session_id = f"test-nlb-{int(time.time())}"` (line 26), modelled like
`SESSION_ID`. -/
def nlbSessionId (nowMs : Nat) : String := "test-nlb-" ++ Nat.repr (nowMs / 1000)

/-- The request issued by `test_session_creation` (lines 29-34):
`POST {NLB_URL}/sessions` with body `{"session_id": sid}`, `timeout=30`. -/
def sessionRequest (sid : String) : Request :=
  { method := "POST", url := NLB_URL ++ "/sessions"
    payload := some [("session_id", sid)], timeout := 30 }

/-- The per-step outcome of the nlb script's test functions: the returned
boolean and the printed lines. -/
structure StepResult where
  ok : Bool
  stdout : List String
deriving DecidableEq

/-- The classifier realised by the exception handling of
`test-nlb-session.py`: both test functions have a single broad
`except Exception` clause (lines 19-21 and 38-40), so every exception —
timeouts and connection failures included — lands in the spec's catch-all
`OtherError` category; no finer kind is ever produced. -/
def nlbClassify (_e : PyExc) : OutcomeKind := .OtherError

/-- `test_health` (lines 11-21): `GET /health`; on a response, print the
status, then print `response.json()` — which raises if the body is not JSON,
landing in the `except` clause — and return `status == 200`; on any
exception print `Error: {e}` and return `False`. -/
def test_health (tr : TransportResult) : StepResult :=
  match tr with
  | .ok resp =>
    match resp.json with
    | .ok js =>
      { ok := resp.status == 200
        stdout := ["Status: " ++ Nat.repr resp.status, "Response: " ++ js] }
    | .error m =>
      { ok := false
        stdout := ["Status: " ++ Nat.repr resp.status, "Error: " ++ m] }
  | .exn e => { ok := false, stdout := ["Error: " ++ e.msg] }

/-- `test_session_creation` (lines 23-40): `POST /sessions`; on a response,
print the status, then print `json.dumps(response.json(), indent=2)` — which
raises if the body is not JSON — and return `status == 201`; on any exception
print `Error: {e}` and return `False`. -/
def test_session_creation (tr : TransportResult) : StepResult :=
  match tr with
  | .ok resp =>
    match resp.json with
    | .ok js =>
      { ok := resp.status == 201
        stdout := ["Status: " ++ Nat.repr resp.status, "Response: " ++ js] }
    | .error m =>
      { ok := false
        stdout := ["Status: " ++ Nat.repr resp.status, "Error: " ++ m] }
  | .exn e => { ok := false, stdout := ["Error: " ++ e.msg] }

/-- The `__main__` block of `test-nlb-session.py` (lines 42-59): run
`test_health`; only if it returned `True`, run `test_session_creation`; print
the verdict banner.  The script never calls `sys.exit`, so the process always
terminates normally with exit code 0, whatever the step outcomes were.
`tr1` is the environment's answer to the health call and `tr2` its answer to
the session-creation call, should it be made. -/
def nlbMain (nowMs : Nat) (tr1 tr2 : TransportResult) : ProcResult :=
  let h := test_health tr1
  if h.ok then
    let s := test_session_creation tr2
    if s.ok then
      { exitCode := 0
        stdout := h.stdout ++ s.stdout ++ ["✅ ALL TESTS PASSED!"]
        issued := [healthRequest, sessionRequest (nlbSessionId nowMs)] }
    else
      { exitCode := 0
        stdout := h.stdout ++ s.stdout ++ ["❌ Session creation failed"]
        issued := [healthRequest, sessionRequest (nlbSessionId nowMs)] }
  else
    { exitCode := 0
      stdout := h.stdout ++ ["❌ Health check failed"]
      issued := [healthRequest] }

/- ### Concrete transports used to instantiate the theorems -/

/-- A transport whose first call returns HTTP 200 with a JSON body and whose
later calls raise a read timeout. -/
def okThenTimeout : Nat → TransportResult := fun i =>
  if i = 0 then .ok ⟨200, "ok", .ok "ok"⟩ else .exn (.timeout "Read timed out")

/-- A transport that answers every call with HTTP 500 and a non-JSON body. -/
def allServerError : Nat → TransportResult := fun _ =>
  .ok ⟨500, "Internal Server Error", .error "Expecting value: line 1 column 1 (char 0)"⟩

/-- A transport that raises a read timeout on every call. -/
def allTimeout : Nat → TransportResult := fun _ => .exn (.timeout "Read timed out")

/-- A transport whose every call is refused at the connection level. -/
def allRefused : Nat → TransportResult := fun _ => .exn (.connectionError "Connection refused")

/- ### Decimal rendering: `Nat.repr` is injective -/

/-- The most-significant-first decimal digit characters of `n`: the fuel-free
form of what `Nat.toDigitsCore 10` computes. -/
def decDigits (n : Nat) : List Char :=
  if h : n < 10 then [Nat.digitChar n]
  else decDigits (n / 10) ++ [Nat.digitChar (n % 10)]
decreasing_by exact Nat.div_lt_self (by omega) (by omega)

theorem decDigits_lt (n : Nat) (h : n < 10) : decDigits n = [Nat.digitChar n] := by
  rw [decDigits]
  simp [h]

theorem decDigits_ge (n : Nat) (h : ¬ n < 10) :
    decDigits n = decDigits (n / 10) ++ [Nat.digitChar (n % 10)] := by
  rw [decDigits]
  simp [h]

theorem decDigits_ne_nil (n : Nat) : decDigits n ≠ [] := by
  by_cases h : n < 10
  · rw [decDigits_lt n h]
    simp
  · rw [decDigits_ge n h]
    simp

theorem toDigitsCore_eq_decDigits :
    ∀ (f n : Nat) (ds : List Char), n < f →
      Nat.toDigitsCore 10 f n ds = decDigits n ++ ds := by
  intro f
  induction f with
  | zero => intro n ds h; omega
  | succ f ih =>
    intro n ds h
    by_cases h10 : n < 10
    · have hdiv : n / 10 = 0 := Nat.div_eq_of_lt h10
      have hmod : n % 10 = n := Nat.mod_eq_of_lt h10
      simp [Nat.toDigitsCore, hdiv, hmod, decDigits_lt n h10]
    · have hdiv : n / 10 ≠ 0 := by omega
      have hlt : n / 10 < f := by
        have h1 : n / 10 < n := Nat.div_lt_self (by omega) (by omega)
        omega
      simp only [Nat.toDigitsCore, hdiv, if_false]
      rw [ih (n / 10) _ hlt, decDigits_ge n h10, List.append_assoc]
      rfl

theorem repr_eq_decDigits (n : Nat) : Nat.repr n = (decDigits n).asString := by
  show (Nat.toDigitsCore 10 (n + 1) n []).asString = (decDigits n).asString
  rw [toDigitsCore_eq_decDigits (n + 1) n [] (Nat.lt_succ_self n), List.append_nil]

theorem digitChar_injOn : ∀ a < 10, ∀ b < 10, Nat.digitChar a = Nat.digitChar b → a = b := by
  decide

theorem decDigits_injective : ∀ m n : Nat, decDigits m = decDigits n → m = n := by
  intro m
  induction m using Nat.strong_induction_on with
  | _ m ih =>
    intro n heq
    by_cases hm : m < 10 <;> by_cases hn : n < 10
    · rw [decDigits_lt m hm, decDigits_lt n hn] at heq
      exact digitChar_injOn m hm n hn (List.cons.injEq .. ▸ heq).1
    · rw [decDigits_lt m hm, decDigits_ge n hn] at heq
      have := congrArg List.length heq
      simp at this
      exact absurd this (decDigits_ne_nil (n / 10))
    · rw [decDigits_ge m hm, decDigits_lt n hn] at heq
      have := congrArg List.length heq
      simp at this
      exact absurd this (decDigits_ne_nil (m / 10))
    · rw [decDigits_ge m hm, decDigits_ge n hn] at heq
      obtain ⟨h1, h2⟩ := List.append_inj' heq (by simp)
      have hdiv : m / 10 = n / 10 :=
        ih (m / 10) (Nat.div_lt_self (by omega) (by omega)) (n / 10) h1
      have hmod : m % 10 = n % 10 :=
        digitChar_injOn (m % 10) (Nat.mod_lt m (by omega)) (n % 10) (Nat.mod_lt n (by omega))
          (List.cons.injEq .. ▸ h2).1
      omega

theorem Nat_repr_injective : ∀ m n : Nat, Nat.repr m = Nat.repr n → m = n := by
  intro m n h
  rw [repr_eq_decDigits, repr_eq_decDigits] at h
  apply decDigits_injective
  have : (decDigits m).asString.data = (decDigits n).asString.data := by rw [h]
  simpa [List.asString] using this

/- ### String helper lemmas -/

/-- Cancel a common literal prefix and suffix around two strings. -/
theorem String_append_cancel (p s a b : String) (h : p ++ a ++ s = p ++ b ++ s) : a = b := by
  apply String.ext
  have hd := congrArg String.data h
  simp only [String.data_append] at hd
  exact List.append_cancel_left (List.append_cancel_right hd)

/-- Cancel a common literal prefix of two strings. -/
theorem String_append_cancel_left (p a b : String) (h : p ++ a = p ++ b) : a = b := by
  apply String.ext
  have hd := congrArg String.data h
  simp only [String.data_append] at hd
  exact List.append_cancel_left hd

/- ### C6: session-identifier uniqueness across runs -/

/-- C6 counterexample: two runs of `test-e2e-flow.py` started at distinct wall
clock instants (100200 ms and 100700 ms, i.e. half a second apart within the
same whole second) obtain the same `SESSION_ID`, so the generated identifier is
not unique across every pair of distinct runs. -/
theorem SESSION_ID_not_unique_across_runs :
    (100200 : Nat) ≠ 100700 ∧ SESSION_ID 100200 = SESSION_ID 100700 := by
  exact ⟨by decide, rfl⟩

/-- C6 (amended): the `SESSION_ID`s of two runs coincide exactly when the runs
start within the same whole second — `int(time.time())` truncates to seconds,
so uniqueness is guaranteed only across runs whose truncated timestamps
differ, not across every pair of distinct runs. -/
theorem SESSION_ID_inj_iff (t1 t2 : Nat) :
    SESSION_ID t1 = SESSION_ID t2 ↔ t1 / 1000 = t2 / 1000 := by
  constructor
  · intro h
    exact Nat_repr_injective _ _ (String_append_cancel_left "test-session-" _ _ h)
  · intro h
    show "test-session-" ++ Nat.repr (t1 / 1000) = "test-session-" ++ Nat.repr (t2 / 1000)
    rw [h]

/- ### C7: one identifier for all steps of a run -/

/-- C7: in `test-e2e-flow.py` all three step URLs of a run are rendered from
one and the same session identifier, namely the `SESSION_ID` computed once at
run start; no step of the run uses a different identifier (the identifier is
recoverable from the URL list, uniquely). -/
theorem e2e_one_session_id_per_run (nowMs : Nat) :
    (e2eRequests (SESSION_ID nowMs)).map Request.url =
      [API_GATEWAY_URL ++ "/api/v1/session/" ++ SESSION_ID nowMs ++ "/execute",
       API_GATEWAY_URL ++ "/api/v1/session/" ++ SESSION_ID nowMs ++ "/status",
       API_GATEWAY_URL ++ "/api/v1/session/" ++ SESSION_ID nowMs ++ "/execute"] ∧
    ∀ sid' : String,
      (e2eRequests (SESSION_ID nowMs)).map Request.url =
        [API_GATEWAY_URL ++ "/api/v1/session/" ++ sid' ++ "/execute",
         API_GATEWAY_URL ++ "/api/v1/session/" ++ sid' ++ "/status",
         API_GATEWAY_URL ++ "/api/v1/session/" ++ sid' ++ "/execute"] → sid' = SESSION_ID nowMs := by
  refine ⟨rfl, ?_⟩
  intro sid' h
  simp only [e2eRequests, e2eStep1, e2eStep2, e2eStep3, List.map_cons, List.map_nil,
    List.cons.injEq, and_true] at h
  exact (String_append_cancel (API_GATEWAY_URL ++ "/api/v1/session/") "/execute" _ _ h.1).symm

/- ### C8: idempotent rendering of the session path -/

/-- C8: rendering the execute path from the same session identifier twice
yields byte-identical URLs — the first and third steps of the e2e flow carry
exactly the same `/api/v1/session/{id}/execute` URL, both in general and for
the `SESSION_ID` of any concrete run. -/
theorem e2e_render_idempotent (sid : String) :
    (e2eStep1 sid).url = (e2eStep3 sid).url ∧
    ((e2eStep1 sid).url).data = ((e2eStep3 sid).url).data ∧
    ∀ nowMs : Nat, (e2eStep1 (SESSION_ID nowMs)).url = (e2eStep3 (SESSION_ID nowMs)).url :=
  ⟨rfl, rfl, fun _ => rfl⟩

/- ### Run-shape helper lemmas -/

/-- Both exit branches of `test-e2e-flow.py` leave the issued-request list of
the `try` block untouched. -/
theorem e2eMain_issued (nowMs : Nat) (transport : Nat → TransportResult) :
    (e2eMain nowMs transport).issued =
      (e2eGo (e2eRequests (SESSION_ID nowMs)) transport 0).1 := by
  simp only [e2eMain]
  split <;> rfl

/-- The `try` block issues a sublist (in fact a prefix) of its request list. -/
theorem e2eGo_issued_sublist (reqs : List Request) (transport : Nat → TransportResult) :
    ∀ i : Nat, List.Sublist (e2eGo reqs transport i).1 reqs := by
  induction reqs with
  | nil => intro i; simp [e2eGo]
  | cons r rs ih =>
    intro i
    cases htr : transport i with
    | ok resp =>
      simpa [e2eGo, htr] using List.Sublist.cons₂ r (ih (i + 1))
    | exn e =>
      simp [e2eGo, htr]

/-- Summing respects `Forall₂ (≤)`. -/
theorem sum_le_sum_of_forall_le (ds ts : List Nat) (h : List.Forall₂ (· ≤ ·) ds ts) :
    ds.sum ≤ ts.sum := by
  induction h with
  | nil => simp
  | cons hab _ ih => simp only [List.sum_cons]; omega

/-- Summing naturals respects sublists. -/
theorem sum_le_sum_of_sublist (l1 l2 : List Nat) (h : List.Sublist l1 l2) : l1.sum ≤ l2.sum := by
  induction h with
  | slnil => simp
  | cons a _ ih => simp only [List.sum_cons]; omega
  | cons₂ a _ ih => simp only [List.sum_cons]; omega

/- ### C10: every received response counts as success in the e2e flow -/

/-- C10: in `test-e2e-flow.py` no status code is ever checked — whenever all
three calls return responses, whatever their statuses (4xx and 5xx included),
the script prints the success banner and exits with code 0; only a raised
exception can fail the run. -/
theorem e2e_any_response_is_success (nowMs : Nat) (transport : Nat → TransportResult)
    (h : ∀ i, i < 3 → ∃ resp, transport i = .ok resp) :
    (e2eMain nowMs transport).exitCode = 0 ∧
      "✅ End-to-end test completed successfully!" ∈ (e2eMain nowMs transport).stdout := by
  obtain ⟨r0, h0⟩ := h 0 (by omega)
  obtain ⟨r1, h1⟩ := h 1 (by omega)
  obtain ⟨r2, h2⟩ := h 2 (by omega)
  simp [e2eMain, e2eRequests, e2eGo, h0, h1, h2]

/-- C10 witness: a run in which every endpoint answers 500 with a non-JSON
body still exits 0 and prints the success banner. -/
theorem e2e_any_response_is_success_witness :
    (e2eMain 0 allServerError).exitCode = 0 ∧
      "✅ End-to-end test completed successfully!" ∈ (e2eMain 0 allServerError).stdout :=
  e2e_any_response_is_success 0 allServerError (fun _ _ => ⟨_, rfl⟩)

/- ### C2: fail-fast -/

/-- C2: execution halts at the first failure.  In `test-e2e-flow.py`, if call
`k` (of the 3) raises while the earlier calls returned responses, exactly the
first `k+1` requests are issued and the steps after `k` are never invoked; in
`test-nlb-session.py`, if the health step fails, the session-creation request
is never issued. -/
theorem fail_fast (nowMs : Nat) (transport : Nat → TransportResult) :
    (∀ (k : Nat) (e : PyExc), k < 3 → transport k = .exn e →
        (∀ j, j < k → ∃ r, transport j = .ok r) →
        (e2eMain nowMs transport).issued = (e2eRequests (SESSION_ID nowMs)).take (k + 1)) ∧
    (∀ tr1 tr2 : TransportResult, (test_health tr1).ok = false →
        (nlbMain nowMs tr1 tr2).issued = [healthRequest]) := by
  constructor
  · intro k e hk htr hprev
    interval_cases k
    · simp [e2eMain, e2eRequests, e2eGo, htr]
    · obtain ⟨r0, h0⟩ := hprev 0 (by omega)
      simp [e2eMain, e2eRequests, e2eGo, h0, htr]
    · obtain ⟨r0, h0⟩ := hprev 0 (by omega)
      obtain ⟨r1, h1⟩ := hprev 1 (by omega)
      simp [e2eMain, e2eRequests, e2eGo, h0, h1, htr]
  · intro tr1 tr2 h
    simp [nlbMain, h]

/-- C2 witness: with a transport that answers the first call and times out on
the second, the e2e flow issues exactly the first two requests; with a health
check refused at the connection level, the nlb script issues only the health
request. -/
theorem fail_fast_witness :
    (e2eMain 0 okThenTimeout).issued = (e2eRequests (SESSION_ID 0)).take 2 ∧
    (nlbMain 0 (.exn (.connectionError "Connection refused"))
        (.ok ⟨201, "", .ok "created"⟩)).issued = [healthRequest] := by
  constructor
  · exact (fail_fast 0 okThenTimeout).1 1 (.timeout "Read timed out") (by omega) rfl
      (fun j hj => by interval_cases j; exact ⟨_, rfl⟩)
  · exact (fail_fast 0 allRefused).2 (.exn (.connectionError "Connection refused"))
      (.ok ⟨201, "", .ok "created"⟩) rfl

/-- C7 witness: the uniqueness clause applied to the run started at 0 ms —
the only identifier the URL list of that run can be read as using is its own
`SESSION_ID`. -/
theorem e2e_one_session_id_per_run_witness :
    SESSION_ID 0 = SESSION_ID 0 ∧
    (e2eRequests (SESSION_ID 0)).map Request.url =
      [API_GATEWAY_URL ++ "/api/v1/session/" ++ SESSION_ID 0 ++ "/execute",
       API_GATEWAY_URL ++ "/api/v1/session/" ++ SESSION_ID 0 ++ "/status",
       API_GATEWAY_URL ++ "/api/v1/session/" ++ SESSION_ID 0 ++ "/execute"] :=
  ⟨(e2e_one_session_id_per_run 0).2 (SESSION_ID 0) (e2e_one_session_id_per_run 0).1,
   (e2e_one_session_id_per_run 0).1⟩

/-- C6 witness: runs started in distinct whole seconds (5000 ms and 6000 ms)
get distinct identifiers; runs started within the same whole second
(100200 ms and 100999 ms) get the same identifier. -/
theorem SESSION_ID_inj_iff_witness :
    SESSION_ID 5000 ≠ SESSION_ID 6000 ∧ SESSION_ID 100200 = SESSION_ID 100999 :=
  ⟨fun h => absurd ((SESSION_ID_inj_iff 5000 6000).mp h) (by decide),
   (SESSION_ID_inj_iff 100200 100999).mpr (by decide)⟩

/- ### C9: finite per-step timeouts bound the run duration -/

/-- C9: every call either script issues carries a positive finite `timeout=`;
the e2e step timeouts sum to 50 s and the nlb ones to 40 s, and whenever each
executed step suspends no longer than its own timeout, the total blocking
duration of a run is bounded by that sum (the run only ever issues a prefix of
its step list). -/
theorem bounded_step_timeouts :
    (∀ sid : String, ∀ r ∈ e2eRequests sid, 0 < r.timeout) ∧
    (∀ (nowMs : Nat) (tr1 tr2 : TransportResult),
        ∀ r ∈ (nlbMain nowMs tr1 tr2).issued, 0 < r.timeout) ∧
    (∀ sid : String, ((e2eRequests sid).map Request.timeout).sum = 50) ∧
    (∀ (nowMs : Nat) (transport : Nat → TransportResult) (ds : List Nat),
        List.Forall₂ (· ≤ ·) ds ((e2eMain nowMs transport).issued.map Request.timeout) →
        ds.sum ≤ 50) ∧
    (∀ (nowMs : Nat) (tr1 tr2 : TransportResult) (ds : List Nat),
        List.Forall₂ (· ≤ ·) ds ((nlbMain nowMs tr1 tr2).issued.map Request.timeout) →
        ds.sum ≤ 40) := by
  refine ⟨?_, ?_, ?_, ?_, ?_⟩
  · intro sid r hr
    simp only [e2eRequests, List.mem_cons, List.not_mem_nil, or_false] at hr
    rcases hr with h | h | h <;> subst h <;> norm_num [e2eStep1, e2eStep2, e2eStep3]
  · intro nowMs tr1 tr2 r hr
    by_cases h1 : (test_health tr1).ok
    · by_cases h2 : (test_session_creation tr2).ok
      · simp [nlbMain, h1, h2] at hr
        rcases hr with h | h <;> subst h <;> norm_num [healthRequest, sessionRequest]
      · simp [nlbMain, h1, h2] at hr
        rcases hr with h | h <;> subst h <;> norm_num [healthRequest, sessionRequest]
    · simp [nlbMain, h1] at hr
      subst hr
      norm_num [healthRequest]
  · intro sid; rfl
  · intro nowMs transport ds h
    have h1 := sum_le_sum_of_forall_le _ _ h
    have h2 : List.Sublist ((e2eMain nowMs transport).issued.map Request.timeout)
        ((e2eRequests (SESSION_ID nowMs)).map Request.timeout) := by
      rw [e2eMain_issued]
      exact List.Sublist.map Request.timeout
        (e2eGo_issued_sublist (e2eRequests (SESSION_ID nowMs)) transport 0)
    have h3 := sum_le_sum_of_sublist _ _ h2
    have h4 : ((e2eRequests (SESSION_ID nowMs)).map Request.timeout).sum = 50 := rfl
    omega
  · intro nowMs tr1 tr2 ds h
    have h1 := sum_le_sum_of_forall_le _ _ h
    by_cases hh : (test_health tr1).ok
    · by_cases hs : (test_session_creation tr2).ok <;>
        simp [nlbMain, hh, hs, healthRequest, sessionRequest] at h1 <;> omega
    · simp [nlbMain, hh, healthRequest] at h1
      omega

/-- C9 witness: the bounds instantiated on concrete runs — a member of the e2e
step list, a member of an nlb run's issued list, and concrete per-step
durations below each timeout. -/
theorem bounded_step_timeouts_witness :
    0 < (e2eStep1 "s").timeout ∧
    0 < healthRequest.timeout ∧
    ((e2eRequests "s").map Request.timeout).sum = 50 ∧
    ([29, 9, 10] : List Nat).sum ≤ 50 ∧
    ([9] : List Nat).sum ≤ 40 :=
  ⟨bounded_step_timeouts.1 "s" (e2eStep1 "s") (by simp [e2eRequests]),
   bounded_step_timeouts.2.1 0 (.exn (.timeout "Read timed out")) (.ok ⟨201, "", .ok "x"⟩)
     healthRequest (by simp [nlbMain, test_health]),
   bounded_step_timeouts.2.2.1 "s",
   bounded_step_timeouts.2.2.2.1 0 allServerError [29, 9, 10]
     (.cons (by decide) (.cons (by decide) (.cons (by decide) .nil))),
   bounded_step_timeouts.2.2.2.2 0 (.exn (.timeout "Read timed out")) (.ok ⟨201, "", .ok "x"⟩)
     [9] (.cons (by decide) .nil)⟩

/- ### C3: timeout classification -/

/-- C3 counterexample: in `test-nlb-session.py` a transport timeout does not
produce a `Timeout`-kind outcome.  The script's only handler is the broad
`except Exception` — the catch-all `OtherError` category — and a timeout is
handled identically to an arbitrary unclassified exception carrying the same
message, in both test functions, so no outcome distinguishing timeouts exists
in that script. -/
theorem nlb_timeout_not_classified :
    nlbClassify (.timeout "Read timed out") = .OtherError ∧
    OutcomeKind.OtherError ≠ OutcomeKind.Timeout ∧
    test_health (.exn (.timeout "Read timed out")) =
      test_health (.exn (.other "Read timed out")) ∧
    test_session_creation (.exn (.timeout "Read timed out")) =
      test_session_creation (.exn (.other "Read timed out")) :=
  ⟨rfl, by decide, rfl, rfl⟩

/-- C3 (amended): in `test-e2e-flow.py` a transport timeout (including a
connect timeout) is caught by the dedicated `except Timeout` clause — the
outcome kind is exactly `Timeout`, never `OtherError`, and the run prints the
timeout marker line; in `test-nlb-session.py` the single generic handler does
not classify timeouts. -/
theorem e2e_timeout_classified (nowMs : Nat) (transport : Nat → TransportResult)
    (k : Nat) (e : PyExc) (hk : k < 3) (he : e.isTimeout = true)
    (htr : transport k = .exn e) (hprev : ∀ j, j < k → ∃ r, transport j = .ok r) :
    e2eClassify e = .Timeout ∧ e2eClassify e ≠ .OtherError ∧
      ("❌ Timeout error: " ++ e.msg) ∈ (e2eMain nowMs transport).stdout := by
  refine ⟨by simp [e2eClassify, he], by simp [e2eClassify, he], ?_⟩
  interval_cases k
  · simp [e2eMain, e2eRequests, e2eGo, htr, e2eClassify, he]
  · obtain ⟨r0, h0⟩ := hprev 0 (by omega)
    simp [e2eMain, e2eRequests, e2eGo, h0, htr, e2eClassify, he]
  · obtain ⟨r0, h0⟩ := hprev 0 (by omega)
    obtain ⟨r1, h1⟩ := hprev 1 (by omega)
    simp [e2eMain, e2eRequests, e2eGo, h0, h1, htr, e2eClassify, he]

/-- C3 witness: a run of the e2e flow whose very first call times out is
classified `Timeout` and prints the timeout marker. -/
theorem e2e_timeout_classified_witness :
    e2eClassify (.timeout "Read timed out") = .Timeout ∧
    e2eClassify (.timeout "Read timed out") ≠ .OtherError ∧
    ("❌ Timeout error: " ++ (PyExc.timeout "Read timed out").msg) ∈
      (e2eMain 0 allTimeout).stdout :=
  e2e_timeout_classified 0 allTimeout 0 (.timeout "Read timed out") (by omega) rfl rfl
    (fun j hj => absurd hj (by omega))

/- ### C4: connection-error classification -/

/-- C4 counterexample: in `test-nlb-session.py` a refused connection does not
produce a `ConnectionError`-kind outcome: the only handler is the broad
`except Exception` (the catch-all `OtherError` category), and a connection
refusal is handled identically to an arbitrary unclassified exception with
the same message. -/
theorem nlb_conn_error_not_classified :
    nlbClassify (.connectionError "Connection refused") = .OtherError ∧
    OutcomeKind.OtherError ≠ OutcomeKind.ConnectionError ∧
    test_health (.exn (.connectionError "Connection refused")) =
      test_health (.exn (.other "Connection refused")) ∧
    test_session_creation (.exn (.connectionError "Connection refused")) =
      test_session_creation (.exn (.other "Connection refused")) :=
  ⟨rfl, by decide, rfl, rfl⟩

/-- C4 (amended): in `test-e2e-flow.py` a transport-level connection failure
that is not itself a timeout (refusal, DNS failure, reset) is caught by the
dedicated `except ConnectionError` clause — the outcome kind is exactly
`ConnectionError` — and the run prints the connection-error marker (a connect
timeout is instead caught by the preceding `Timeout` clause);
`test-nlb-session.py` does not classify connection failures at all. -/
theorem e2e_conn_error_classified (nowMs : Nat) (transport : Nat → TransportResult)
    (k : Nat) (e : PyExc) (hk : k < 3) (he : e.isConnectionError = true)
    (het : e.isTimeout = false)
    (htr : transport k = .exn e) (hprev : ∀ j, j < k → ∃ r, transport j = .ok r) :
    e2eClassify e = .ConnectionError ∧
      ("❌ Connection error: " ++ e.msg) ∈ (e2eMain nowMs transport).stdout := by
  refine ⟨by simp [e2eClassify, he, het], ?_⟩
  interval_cases k
  · simp [e2eMain, e2eRequests, e2eGo, htr, e2eClassify, he, het]
  · obtain ⟨r0, h0⟩ := hprev 0 (by omega)
    simp [e2eMain, e2eRequests, e2eGo, h0, htr, e2eClassify, he, het]
  · obtain ⟨r0, h0⟩ := hprev 0 (by omega)
    obtain ⟨r1, h1⟩ := hprev 1 (by omega)
    simp [e2eMain, e2eRequests, e2eGo, h0, h1, htr, e2eClassify, he, het]

/-- C4 witness: a run of the e2e flow whose second call is refused is
classified `ConnectionError` and prints the connection-error marker. -/
theorem e2e_conn_error_classified_witness :
    e2eClassify (.connectionError "Connection refused") = .ConnectionError ∧
    ("❌ Connection error: " ++ (PyExc.connectionError "Connection refused").msg) ∈
      (e2eMain 0 allRefused).stdout :=
  e2e_conn_error_classified 0 allRefused 0 (.connectionError "Connection refused")
    (by omega) rfl rfl rfl (fun j hj => absurd hj (by omega))

/- ### C5: expected-status checking in the nlb script -/

/-- C5 counterexample: a received response whose status is in the expected set
does not always yield success — `response.json()` is evaluated before the
status comparison returns, so a 200 health response (or a 201 create response)
whose body is not valid JSON makes the step fail via the generic handler,
where the claim requires Success. -/
theorem nlb_expected_status_not_sufficient :
    (test_health (.ok ⟨200, "OK", .error "Expecting value: line 1 column 1 (char 0)"⟩)).ok
      = false ∧
    (test_session_creation
        (.ok ⟨201, "Created", .error "Expecting value: line 1 column 1 (char 0)"⟩)).ok
      = false :=
  ⟨rfl, rfl⟩

/-- C5 (amended): for a received response whose body parses as JSON, the
health step succeeds exactly when the status is 200 and the create-session
step exactly when it is 201, with the received status always printed in the
step's diagnostic output; a response whose body is not valid JSON fails the
step regardless of its status. -/
theorem nlb_status_check (s : Nat) (t js m : String) :
    ((test_health (.ok ⟨s, t, .ok js⟩)).ok = (s == 200)) ∧
    (("Status: " ++ Nat.repr s) ∈ (test_health (.ok ⟨s, t, .ok js⟩)).stdout) ∧
    ((test_session_creation (.ok ⟨s, t, .ok js⟩)).ok = (s == 201)) ∧
    (("Status: " ++ Nat.repr s) ∈ (test_session_creation (.ok ⟨s, t, .ok js⟩)).stdout) ∧
    ((test_health (.ok ⟨s, t, .error m⟩)).ok = false) ∧
    (("Status: " ++ Nat.repr s) ∈ (test_health (.ok ⟨s, t, .error m⟩)).stdout) ∧
    ((test_session_creation (.ok ⟨s, t, .error m⟩)).ok = false) :=
  ⟨rfl, by simp [test_health], rfl, by simp [test_session_creation], rfl,
   by simp [test_health], rfl⟩

/- ### C1: process exit codes -/

/-- C1: the nlb script never maps a failed run to a non-zero exit code.  At
the failing input where the health call is refused at the connection level,
the health step fails and the failure banner is printed, yet the process exit
code is 0; indeed `test-nlb-session.py` ends without calling `sys.exit`, so
every run of it — passing or failing — exits 0, contradicting the documented
exit-code convention. -/
theorem nlb_exit_code_always_zero :
    (test_health (.exn (.connectionError "Connection refused"))).ok = false ∧
    (nlbMain 0 (.exn (.connectionError "Connection refused"))
        (.ok ⟨201, "ok", .ok "ok"⟩)).exitCode = 0 ∧
    "❌ Health check failed" ∈
      (nlbMain 0 (.exn (.connectionError "Connection refused"))
        (.ok ⟨201, "ok", .ok "ok"⟩)).stdout ∧
    (∀ (nowMs : Nat) (tr1 tr2 : TransportResult), (nlbMain nowMs tr1 tr2).exitCode = 0) := by
  refine ⟨rfl, rfl, by simp [nlbMain, test_health], ?_⟩
  intro nowMs tr1 tr2
  by_cases h1 : (test_health tr1).ok
  · by_cases h2 : (test_session_creation tr2).ok <;> simp [nlbMain, h1, h2]
  · simp [nlbMain, h1]
